import Mathlib

/-! Shallow embedding of the Rockchip boot protocol engine of rk_boot
(src/protocol.rs and src/main.rs): the CRC-16/IBM-3740 upload framing,
the chunked uploader, the 31-byte request wrapper, the 13-byte response
wrapper, and the chip-info dialogue.  Bytes are modelled as natural
numbers below 256; machine integers are natural numbers with explicit
reduction modulo 2^w where overflow matters. -/

/-! ## CRC-16/IBM-3740

The source uses the Rust crc crate: CRC.checksum with algorithm
CRC_16_IBM_3740 (protocol.rs line 31), i.e. width 16, polynomial 0x1021,
init 0xFFFF, no input/output reflection, xorout 0x0000.  The table-driven
crate implementation is semantically the MSB-first bitwise algorithm
embedded here. -/

/-- One shift step of the MSB-first CRC-16 with polynomial 0x1021,
keeping the register reduced modulo 2^16. -/
def crcShift (c : Nat) : Nat :=
  if c &&& 0x8000 ≠ 0 then ((c <<< 1) ^^^ 0x1021) &&& 0xFFFF
  else (c <<< 1) &&& 0xFFFF

/-- Fold one input byte into the CRC register: xor it into the high byte,
then shift eight times. -/
def crc16Byte (c b : Nat) : Nat :=
  let c0 := c ^^^ ((b &&& 0xFF) <<< 8)
  crcShift (crcShift (crcShift (crcShift (crcShift (crcShift (crcShift (crcShift c0)))))))

/-- CRC-16/IBM-3740 of a byte list, as computed by CRC.checksum in
protocol.rs (init 0xFFFF, xorout 0). -/
def crc16 (data : List Nat) : Nat := data.foldl crc16Byte 0xFFFF

/-- Big-endian byte pair of a u16, as Rust u16::to_be_bytes
(protocol.rs line 222). -/
def toBeBytes16 (c : Nat) : List Nat := [c / 256 % 256, c % 256]

/-! ## Upload frame construction (protocol.rs, run, lines 214-223) -/

/-- The CHUNK_SIZE constant of protocol.rs line 179. -/
def CHUNK_SIZE : Nat := 4096

/-- The payload after the conditional one-byte pad of protocol.rs lines
215-219: ext_data starts as a copy of data, and a single 0x00 byte is
appended when the length modulo CHUNK_SIZE is 4095. -/
def extData (data : List Nat) : List Nat :=
  if data.length % CHUNK_SIZE = 4095 then data ++ [0] else data

/-- The full upload frame of protocol.rs lines 214-223: the (optionally
padded) payload followed by its CRC-16/IBM-3740 in big-endian order. -/
def mkFrame (data : List Nat) : List Nat :=
  extData data ++ toBeBytes16 (crc16 (extData data))

/-! ## Uploader (protocol.rs, usb_out lines 184-212 and run lines 214-251)

The uploader issues vendor control-OUT transfers.  Each call to usb_out
is modelled as the transfer record it submits; run is modelled as the
list of transfers it submits, in order. -/

/-- Region enum of protocol.rs lines 17-20, with its wire-visible
discriminants recovered by regionIndex. -/
inductive Region where
  | Sram
  | Dram
deriving DecidableEq, Repr

/-- Numeric value of a Region, as produced by the cast
region.clone() as u16 in usb_out (protocol.rs line 185). -/
def regionIndex : Region → Nat
  | .Sram => 0x471
  | .Dram => 0x472

/-- Control-transfer type field of the nusb ControlOut record. -/
inductive CtrlType where
  | Standard
  | Class
  | Vendor
deriving DecidableEq, Repr

/-- Control-transfer recipient field of the nusb ControlOut record. -/
inductive CtrlRecipient where
  | Device
  | Iface
  | Endpoint
  | Other
deriving DecidableEq, Repr

/-- One vendor control-OUT transfer as assembled by usb_out
(protocol.rs lines 184-193). -/
structure CtrlXfer where
  control_type : CtrlType
  recipient : CtrlRecipient
  request : Nat
  value : Nat
  index : Nat
  data : List Nat
deriving DecidableEq, Repr

/-- The REQUEST constant of protocol.rs line 182. -/
def REQUEST : Nat := 0xc

/-- Transfer record submitted by usb_out (protocol.rs lines 184-193):
vendor type, device recipient, request 0x0c, value 0, index the region
code, and the chunk bytes as the data stage. -/
def usb_out (data : List Nat) (region : Region) : CtrlXfer :=
  { control_type := .Vendor
    recipient := .Device
    request := REQUEST
    value := 0
    index := regionIndex region
    data := data }

/-- The sequence of control-OUT transfers submitted by run
(protocol.rs lines 214-251): full_chunks = l / CHUNK_SIZE slices of
exactly CHUNK_SIZE bytes at offsets c * CHUNK_SIZE, then either the
remaining tail when l is not a multiple of CHUNK_SIZE, or a single
0x00 byte otherwise. -/
def run (data : List Nat) (region : Region) : List CtrlXfer :=
  let ext_data := mkFrame data
  let l := ext_data.length
  let full_chunks := l / CHUNK_SIZE
  let fulls := (List.range full_chunks).map
    (fun c => usb_out ((ext_data.drop (c * CHUNK_SIZE)).take CHUNK_SIZE) region)
  if l % CHUNK_SIZE > 0 then
    fulls ++ [usb_out (ext_data.drop (full_chunks * CHUNK_SIZE)) region]
  else
    fulls ++ [usb_out [0] region]

/-! ## Request and response wrappers (protocol.rs lines 47-82)

Both structs are repr(C, packed) and serialized byte-for-byte by
zerocopy as_bytes, all multi-byte fields little-endian. -/

/-- Little-endian four-byte encoding of a u32 field. -/
def le32 (x : Nat) : List Nat :=
  [x % 256, x / 256 % 256, x / 65536 % 256, x / 16777216 % 256]

/-- Little-endian two-byte encoding of a u16 field. -/
def le16 (x : Nat) : List Nat := [x % 256, x / 256 % 256]

/-- Value of four little-endian bytes. -/
def decodeLe32 (bs : List Nat) : Nat :=
  match bs with
  | [a, b, c, d] => a + 256 * b + 65536 * c + 16777216 * d
  | _ => 0

/-- The 16-byte packed RkCommand record of protocol.rs lines 47-59. -/
structure RkCommand where
  code : Nat
  subcode : Nat
  address : Nat
  r6 : Nat
  size : Nat
  r9 : Nat
  r10 : Nat
  r11 : Nat
  r12 : Nat
deriving DecidableEq, Repr

/-- Byte serialization of the packed RkCommand record: code, subcode,
address (u32 LE), one reserved byte, size (u16 LE), three reserved
bytes, one reserved u32. -/
def RkCommand.asBytes (c : RkCommand) : List Nat :=
  [c.code, c.subcode] ++ le32 c.address ++ [c.r6] ++ le16 c.size
    ++ [c.r9, c.r10, c.r11] ++ le32 c.r12

/-- The 31-byte packed Request wrapper of protocol.rs lines 61-71. -/
structure Request where
  signature : List Nat
  tag : Nat
  length : Nat
  flag : Nat
  lun : Nat
  command_length : Nat
  command : RkCommand
deriving DecidableEq, Repr

/-- Byte serialization of the packed Request wrapper: 4 signature
bytes, tag (u32 LE), length (u32 LE), flag, lun, command_length, then
the 16 command bytes. -/
def Request.asBytes (r : Request) : List Nat :=
  r.signature ++ le32 r.tag ++ le32 r.length
    ++ [r.flag, r.lun, r.command_length] ++ r.command.asBytes

/-- The USB_REQUEST_SIGNATURE bytes of protocol.rs line 33, ASCII
USBC. -/
def USB_REQUEST_SIGNATURE : List Nat := [0x55, 0x53, 0x42, 0x43]

/-- The USB_RESPONSE_SIGNATURE bytes of protocol.rs line 34, ASCII
USBS. -/
def USB_RESPONSE_SIGNATURE : List Nat := [0x55, 0x53, 0x42, 0x53]

/-- The FLAG_DIR_IN constant of protocol.rs line 36. -/
def FLAG_DIR_IN : Nat := 0x80

/-- A Request as the dialogue builds it (protocol.rs info, lines
132-155): signature USBC, caller tag, data-phase length, direction
flag, lun 0, command_length 6, and a command record whose code is the
opcode and whose other fields are zero. -/
def mkRequest (c t L d : Nat) : Request :=
  { signature := USB_REQUEST_SIGNATURE
    tag := t
    length := L
    flag := d
    lun := 0
    command_length := 6
    command :=
      { code := c, subcode := 0, address := 0, r6 := 0, size := 0
        r9 := 0, r10 := 0, r11 := 0, r12 := 0 } }

/-- The 13-byte packed Response wrapper of protocol.rs lines 73-80. -/
structure Response where
  signature : List Nat
  tag : Nat
  residue : Nat
  status : Nat
deriving DecidableEq, Repr

/-- The RESPONSE_SIZE constant of protocol.rs line 82 (size of the
packed Response struct). -/
def RESPONSE_SIZE : Nat := 13

/-- Decoding of a 13-byte buffer into a Response, as performed by
zerocopy Response.read_from_prefix in protocol.rs line 170: signature
bytes 0-3, tag LE bytes 4-7, residue LE bytes 8-11, status byte 12. -/
def parseResponse (bs : List Nat) : Response :=
  { signature := bs.take 4
    tag := decodeLe32 ((bs.drop 4).take 4)
    residue := decodeLe32 ((bs.drop 8).take 4)
    status := (bs.drop 12).headD 0 }

/-! ## Bulk transfers (protocol.rs, usb_send lines 84-99 and usb_read_n
lines 101-127)

A bulk transfer either completes with the bytes moved, fails in the USB
stack, or runs past the five-second timer.  The source binds the
io Result of each transfer to the wildcard pattern, so the result never
influences control flow: usb_send returns nothing and usb_read_n returns
its size-byte buffer, pre-filled with zeros and overwritten by however
many bytes arrived. -/

/-- Outcome of one bulk transfer as observed by the wrapped future: the
completed data, a transfer error, or the five-second timeout. -/
inductive XferResult where
  | ok (data : List Nat)
  | error
  | timeout
deriving DecidableEq, Repr

/-- Buffer returned by usb_read_n (protocol.rs lines 101-127): a
size-byte vector of zeros whose first bytes are overwritten by the
received data when the transfer succeeds; on error or timeout the
Result is discarded and the zero buffer is returned unchanged.  The
nusb RequestBuffer guarantees at most size received bytes; take keeps
the model total. -/
def usb_read_n (size : Nat) (r : XferResult) : List Nat :=
  match r with
  | .ok data => data.take size ++ List.replicate (size - (data.take size).length) 0
  | .error => List.replicate size 0
  | .timeout => List.replicate size 0

/-! ## UTF-8 validation

protocol.rs line 166 calls std str from_utf8 and unwraps.  This is the
standard UTF-8 byte-sequence validity predicate (RFC 3629 ranges,
surrogates and overlong forms excluded), which that function decides. -/

/-- UTF-8 continuation byte: 0x80 through 0xBF. -/
def utf8ContByte (b : Nat) : Bool := 0x80 ≤ b && b ≤ 0xBF

/-- Validity of a byte list as UTF-8, the predicate decided by the
std str from_utf8 call of protocol.rs line 166. -/
def utf8Valid : List Nat → Bool
  | [] => true
  | b :: rest =>
    if b ≤ 0x7F then utf8Valid rest
    else if 0xC2 ≤ b && b ≤ 0xDF then
      match rest with
      | b1 :: r => utf8ContByte b1 && utf8Valid r
      | [] => false
    else if b = 0xE0 then
      match rest with
      | b1 :: b2 :: r =>
        (0xA0 ≤ b1 && b1 ≤ 0xBF) && utf8ContByte b2 && utf8Valid r
      | _ => false
    else if (0xE1 ≤ b && b ≤ 0xEC) || b = 0xEE || b = 0xEF then
      match rest with
      | b1 :: b2 :: r => utf8ContByte b1 && utf8ContByte b2 && utf8Valid r
      | _ => false
    else if b = 0xED then
      match rest with
      | b1 :: b2 :: r =>
        (0x80 ≤ b1 && b1 ≤ 0x9F) && utf8ContByte b2 && utf8Valid r
      | _ => false
    else if b = 0xF0 then
      match rest with
      | b1 :: b2 :: b3 :: r =>
        (0x90 ≤ b1 && b1 ≤ 0xBF) && utf8ContByte b2 && utf8ContByte b3 && utf8Valid r
      | _ => false
    else if 0xF1 ≤ b && b ≤ 0xF3 then
      match rest with
      | b1 :: b2 :: b3 :: r =>
        utf8ContByte b1 && utf8ContByte b2 && utf8ContByte b3 && utf8Valid r
      | _ => false
    else if b = 0xF4 then
      match rest with
      | b1 :: b2 :: b3 :: r =>
        (0x80 ≤ b1 && b1 ≤ 0x8F) && utf8ContByte b2 && utf8ContByte b3 && utf8Valid r
      | _ => false
    else false

/-! ## Chip-info dialogue (protocol.rs, info, lines 129-177; main.rs has
a byte-for-byte equivalent copy at lines 188-232)

The dialogue is modelled as the ordered list of bulk transfers it
submits together with its outcome.  The process-aborting paths (failed
unwrap or assert_eq) are distinct outcome constructors; there is no
error value returned to the caller. -/

/-- One bulk transfer as submitted to the USB stack: an OUT transfer
carrying bytes to an endpoint address, or an IN transfer requesting a
number of bytes from an endpoint address. -/
inductive BulkXfer where
  | bulkOut (addr : Nat) (data : List Nat)
  | bulkIn (addr : Nat) (size : Nat)
deriving DecidableEq, Repr

/-- Behaviour of the attached device during one chip-info dialogue: the
result of the command-out transfer, of the 16-byte data-phase read, and
of the 13-byte status read. -/
structure InfoDevice where
  sendResult : XferResult
  dataResult : XferResult
  statusResult : XferResult
deriving DecidableEq, Repr

/-- How the chip-info dialogue ends: normal completion carrying the
reversed 4-byte chip identifier, or one of the process-aborting paths
(the from_utf8 unwrap of line 166, the read_from_prefix unwrap of line
170, the signature assert_eq of line 172, the tag assert_eq of
line 174). -/
inductive InfoOutcome where
  | ok (chipId : List Nat)
  | utf8Panic
  | parsePanic
  | signaturePanic
  | tagPanic
deriving DecidableEq, Repr

/-- The serialized chip-info request of protocol.rs info lines 132-157:
opcode 0x1b, tag 0x13372342, length 0x10, direction FLAG_DIR_IN. -/
def infoReqBytes : List Nat :=
  (mkRequest 0x1b 0x13372342 0x10 FLAG_DIR_IN).asBytes

/-- The chip-info dialogue of protocol.rs lines 129-177, as the list of
bulk transfers it submits (in order, stopping at a process abort) and
its outcome.  The command is sent on e_out_addr and its result is
discarded; 0x10 bytes are read from e_in_addr, the first four are
reversed and must be valid UTF-8; RESPONSE_SIZE bytes are read from
e_in_addr and parsed; the signature must be USBS and the tag must echo
0x13372342.  The response status byte is never inspected. -/
def info (e_in_addr e_out_addr : Nat) (dev : InfoDevice) :
    List BulkXfer × InfoOutcome :=
  let sendX := BulkXfer.bulkOut e_out_addr infoReqBytes
  let dataX := BulkXfer.bulkIn e_in_addr 0x10
  let statusX := BulkXfer.bulkIn e_in_addr RESPONSE_SIZE
  let d := ((usb_read_n 0x10 dev.dataResult).take 4).reverse
  if utf8Valid d then
    let buf := usb_read_n RESPONSE_SIZE dev.statusResult
    if buf.length < RESPONSE_SIZE then
      ([sendX, dataX, statusX], .parsePanic)
    else
      let res := parseResponse buf
      if res.signature = USB_RESPONSE_SIGNATURE then
        if res.tag = 0x13372342 then
          ([sendX, dataX, statusX], .ok d)
        else ([sendX, dataX, statusX], .tagPanic)
      else ([sendX, dataX, statusX], .signaturePanic)
  else ([sendX, dataX], .utf8Panic)

/-! ## Helper lemmas -/

/-- The frame is the padded payload plus exactly two CRC bytes. -/
theorem mkFrame_length (p : List Nat) :
    (mkFrame p).length = (extData p).length + 2 := by
  simp [mkFrame, toBeBytes16]

/-- The padded payload keeps the original length unless the pad fired,
in which case it grows by one. -/
theorem extData_length (p : List Nat) :
    (extData p).length =
      if p.length % 4096 = 4095 then p.length + 1 else p.length := by
  unfold extData CHUNK_SIZE
  split <;> simp_all

/-- The padding rule achieves its goal: the pre-CRC length is never
congruent to 4095 modulo 4096. -/
theorem extData_length_mod (p : List Nat) :
    (extData p).length % 4096 < 4095 := by
  rw [extData_length]
  split
  · omega
  · omega

/-! ## Claim theorems -/

/-- Claim C4, counterexample: the claim asserts that the frame for the
empty payload is the two bytes 0x00 0x00; in fact the CRC-16/IBM-3740
register starts at 0xFFFF and processes no input, so the frame is
0xFF 0xFF. -/
theorem C4_counterexample : mkFrame [] ≠ [0x00, 0x00] := by decide

set_option maxRecDepth 8000 in
/-- Claim C4 (amended): the frame for the empty payload is the two
bytes 0xFF 0xFF (big-endian CRC-16/IBM-3740 of empty input, 0xFFFF),
and the frame for the 9-byte payload 123456789 has length 11 and ends
in the bytes 0x29 0xB1, the big-endian CRC-16/IBM-3740 check value
0x29B1. -/
theorem C4_frame_vectors :
    mkFrame [] = [0xFF, 0xFF]
    ∧ crc16 [] = 0xFFFF
    ∧ (mkFrame [0x31, 0x32, 0x33, 0x34, 0x35, 0x36, 0x37, 0x38, 0x39]).length = 11
    ∧ (mkFrame [0x31, 0x32, 0x33, 0x34, 0x35, 0x36, 0x37, 0x38, 0x39]).drop 9
        = [0x29, 0xB1]
    ∧ crc16 [0x31, 0x32, 0x33, 0x34, 0x35, 0x36, 0x37, 0x38, 0x39] = 0x29B1 := by
  refine ⟨by decide, by decide, by decide, by decide, by decide⟩

/-- Claim C6: the frame is built by appending one 0x00 pad byte exactly
when the payload length is congruent to 4095 modulo 4096, then the
CRC-16/IBM-3740 of the optionally padded bytes in big-endian order; the
payload itself is the unchanged prefix of the frame. -/
theorem C6_frame_construction (p : List Nat) :
    mkFrame p =
      (if p.length % 4096 = 4095 then p ++ [0] else p)
        ++ [crc16 (if p.length % 4096 = 4095 then p ++ [0] else p) / 256 % 256,
            crc16 (if p.length % 4096 = 4095 then p ++ [0] else p) % 256]
    ∧ (mkFrame p).take p.length = p := by
  have hext : extData p = if p.length % 4096 = 4095 then p ++ [0] else p := by
    unfold extData CHUNK_SIZE
    rfl
  constructor
  · rw [mkFrame, toBeBytes16, hext]
  · rw [mkFrame, hext]
    split
    · rw [List.append_assoc]
      exact List.take_left' rfl
    · exact List.take_left' rfl

/-- Claim C7, counterexample: a 4093-byte payload is not padded (4093
mod 4096 is not 4095), so after the two CRC bytes the frame length is
4095, which is congruent to 4095 modulo 4096 — the claimed invariant
fails for the full frame. -/
theorem C7_counterexample :
    (mkFrame (List.replicate 4093 0)).length % 4096 = 4095 := by
  rw [mkFrame_length, extData_length, List.length_replicate, if_neg (by decide)]

/-- Claim C7 (amended): it is the optionally padded payload, before the
two CRC bytes are appended, whose length is never congruent to 4095
modulo 4096; the full frame is exactly two bytes longer. -/
theorem C7_padded_length_invariant (p : List Nat) :
    (extData p).length % 4096 < 4095
    ∧ (mkFrame p).length = (extData p).length + 2 := by
  exact ⟨extData_length_mod p, mkFrame_length p⟩

/-- The transfer list of run, written as one append: the mapped range
of full chunks followed by the single final transfer (tail bytes when
the frame length is not a multiple of 4096, a lone 0x00 byte
otherwise). -/
theorem run_eq (p : List Nat) (region : Region) :
    run p region =
      (List.range ((mkFrame p).length / 4096)).map
        (fun c => usb_out (((mkFrame p).drop (c * 4096)).take 4096) region)
      ++ [usb_out
            (if (mkFrame p).length % 4096 > 0
             then (mkFrame p).drop ((mkFrame p).length / 4096 * 4096)
             else [0]) region] := by
  by_cases h : (mkFrame p).length % 4096 > 0
  · simp only [run, CHUNK_SIZE, if_pos h]
  · simp only [run, CHUNK_SIZE, if_neg h]

/-- Claim C5: for a frame of length L the uploader emits exactly
L / 4096 full 4096-byte chunks in order (the c-th transfer carries the
frame slice at offset c * 4096), followed by one final transfer whose
data is the remaining L mod 4096 bytes when that remainder is positive
and the single byte 0x00 otherwise; every transfer is a vendor
control-OUT to the device with request 0x0c, value 0, and index the
region code, 0x471 for SRAM and 0x472 for DRAM. -/
theorem C5_chunking (p : List Nat) (region : Region) :
    (run p region).length = (mkFrame p).length / 4096 + 1
    ∧ (∀ x ∈ run p region,
        x.control_type = CtrlType.Vendor ∧ x.recipient = CtrlRecipient.Device
        ∧ x.request = 0x0c ∧ x.value = 0 ∧ x.index = regionIndex region)
    ∧ (∀ c, c < (mkFrame p).length / 4096 →
        ((run p region)[c]?).map CtrlXfer.data
            = some (((mkFrame p).drop (c * 4096)).take 4096)
          ∧ (((mkFrame p).drop (c * 4096)).take 4096).length = 4096)
    ∧ ((run p region).getLast?).map CtrlXfer.data
        = some (if (mkFrame p).length % 4096 > 0
                then (mkFrame p).drop ((mkFrame p).length / 4096 * 4096)
                else [0])
    ∧ ((mkFrame p).drop ((mkFrame p).length / 4096 * 4096)).length
        = (mkFrame p).length % 4096
    ∧ regionIndex Region.Sram = 0x471 ∧ regionIndex Region.Dram = 0x472 := by
  refine ⟨?_, ?_, ?_, ?_, ?_, rfl, rfl⟩
  · rw [run_eq]
    simp
  · rw [run_eq]
    intro x hx
    rcases List.mem_append.mp hx with hm | hm
    · rcases List.mem_map.mp hm with ⟨c, _, rfl⟩
      exact ⟨rfl, rfl, rfl, rfl, rfl⟩
    · rcases List.mem_singleton.mp hm with rfl
      exact ⟨rfl, rfl, rfl, rfl, rfl⟩
  · intro c hc
    constructor
    · rw [run_eq, List.getElem?_append_left (by simpa using hc),
        List.getElem?_map, List.getElem?_range hc]
      rfl
    · simp only [List.length_take, List.length_drop]
      omega
  · rw [run_eq, List.getLast?_concat]
    rfl
  · simp only [List.length_drop]
    omega

/-- Claim C5, concrete instance: the theorem applied to a one-byte
payload in SRAM, whose 3-byte frame yields zero full chunks and a
single short transfer carrying the whole frame. -/
theorem C5_chunking_witness :
    (run [0xAA] Region.Sram).length = (mkFrame [0xAA]).length / 4096 + 1
    ∧ ((run [0xAA] Region.Sram).getLast?).map CtrlXfer.data
        = some (if (mkFrame [0xAA]).length % 4096 > 0
                then (mkFrame [0xAA]).drop ((mkFrame [0xAA]).length / 4096 * 4096)
                else [0]) := by
  exact ⟨(C5_chunking [0xAA] Region.Sram).1,
    (C5_chunking [0xAA] Region.Sram).2.2.2.1⟩

/-- The buffer returned by usb_read_n always has exactly the requested
size, whatever the transfer result. -/
theorem usb_read_n_length (size : Nat) (r : XferResult) :
    (usb_read_n size r).length = size := by
  cases r with
  | ok data =>
    simp only [usb_read_n, List.length_append, List.length_replicate,
      List.length_take]
    omega
  | error => simp [usb_read_n]
  | timeout => simp [usb_read_n]

/-- Claim C8, counterexample: a data-phase read that requests 4 bytes
and receives the single byte 0xAB yields the 4-byte zero-padded buffer
0xAB 0x00 0x00 0x00, not the 1-byte truncated buffer 0xAB that the
claim describes. -/
theorem C8_counterexample :
    usb_read_n 4 (XferResult.ok [0xAB]) = [0xAB, 0x00, 0x00, 0x00]
    ∧ usb_read_n 4 (XferResult.ok [0xAB]) ≠ [0xAB] := by
  exact ⟨by decide, by decide⟩

/-- Claim C8 (amended): when the device returns fewer bytes than
requested, usb_read_n reports the received bytes at the front of a
buffer padded with zeros to exactly the requested length — the short
read is not truncated. -/
theorem C8_short_read_padded (size : Nat) (data : List Nat)
    (h : data.length ≤ size) :
    usb_read_n size (XferResult.ok data)
      = data ++ List.replicate (size - data.length) 0
    ∧ (usb_read_n size (XferResult.ok data)).length = size := by
  constructor
  · simp only [usb_read_n]
    rw [List.take_of_length_le h]
  · exact usb_read_n_length size (XferResult.ok data)

/-- Claim C8 (amended), concrete instance: the one-byte short read of
the counterexample input, with its zero padding to four bytes. -/
theorem C8_short_read_padded_witness :
    usb_read_n 4 (XferResult.ok [0xAB]) = [0xAB] ++ List.replicate 3 0 :=
  (C8_short_read_padded 4 [0xAB] (by decide)).1

/-- Claim C9: for every opcode c, tag t, length L and direction d (as
machine values of their field widths), the serialized Request is
exactly 31 bytes, begins with the four ASCII bytes USBC, carries t at
byte offset 4 and L at byte offset 8 in little-endian order, and has
the 16-byte command record at offset 15 with its first byte equal
to c. -/
theorem C9_request_layout (c t L d : Nat)
    (ht : t < 4294967296) (hL : L < 4294967296) :
    ((mkRequest c t L d).asBytes).length = 31
    ∧ ((mkRequest c t L d).asBytes).take 4 = USB_REQUEST_SIGNATURE
    ∧ decodeLe32 ((((mkRequest c t L d).asBytes).drop 4).take 4) = t
    ∧ decodeLe32 ((((mkRequest c t L d).asBytes).drop 8).take 4) = L
    ∧ ((mkRequest c t L d).asBytes).drop 15
        = (mkRequest c t L d).command.asBytes
    ∧ (((mkRequest c t L d).asBytes))[15]? = some c := by
  refine ⟨?_, ?_, ?_, ?_, ?_, ?_⟩ <;>
    simp [mkRequest, Request.asBytes, RkCommand.asBytes, le32, le16,
      USB_REQUEST_SIGNATURE, decodeLe32] <;> omega

/-- Claim C9, concrete instance: the layout facts at the chip-info
request values, opcode 0x1b, tag 0x13372342, length 0x10, direction
0x80. -/
theorem C9_request_layout_witness :
    ((mkRequest 0x1b 0x13372342 0x10 0x80).asBytes).length = 31
    ∧ decodeLe32 ((((mkRequest 0x1b 0x13372342 0x10 0x80).asBytes).drop 4).take 4)
        = 0x13372342
    ∧ (((mkRequest 0x1b 0x13372342 0x10 0x80).asBytes))[15]? = some 0x1b := by
  exact ⟨(C9_request_layout 0x1b 0x13372342 0x10 0x80 (by decide) (by decide)).1,
    (C9_request_layout 0x1b 0x13372342 0x10 0x80 (by decide) (by decide)).2.2.1,
    (C9_request_layout 0x1b 0x13372342 0x10 0x80 (by decide) (by decide)).2.2.2.2.2⟩

/-- A successful read that delivers exactly the requested number of
bytes is returned unchanged by usb_read_n. -/
theorem usb_read_n_ok_exact (size : Nat) (data : List Nat)
    (h : data.length = size) :
    usb_read_n size (XferResult.ok data) = data := by
  simp only [usb_read_n]
  rw [List.take_of_length_le (le_of_eq h)]
  simp [h]

/-- Decoding of a 13-byte buffer given as twelve header bytes plus the
status byte: the signature and tag come from the header, the status is
the final byte. -/
theorem parseResponse_concat (pre : List Nat) (s : Nat)
    (h : pre.length = 12) :
    parseResponse (pre ++ [s]) =
      { signature := pre.take 4
        tag := decodeLe32 ((pre.drop 4).take 4)
        residue := decodeLe32 ((pre.drop 8).take 4)
        status := s } := by
  simp only [parseResponse, Response.mk.injEq]
  refine ⟨?_, ?_, ?_, ?_⟩
  · exact List.take_append_of_le_length (by omega)
  · rw [List.drop_append_of_le_length (by omega),
      List.take_append_of_le_length (by simp [h])]
  · rw [List.drop_append_of_le_length (by omega),
      List.take_append_of_le_length (by simp [h])]
  · rw [List.drop_append_of_le_length (by omega), ← h, List.drop_length]
    rfl

/-- Claim C1, counterexample: a status-phase response with the correct
USBS signature and echoed tag but a nonzero status byte (the final
byte, 1) does not fail the dialogue — the status byte is never
inspected and the chip-info operation completes normally. -/
theorem C1_counterexample :
    (info 0x81 0x01
      ⟨XferResult.ok [], XferResult.ok (List.replicate 16 0x33),
       XferResult.ok ([0x55, 0x53, 0x42, 0x53] ++ [0x42, 0x23, 0x37, 0x13]
         ++ [0, 0, 0, 0] ++ [1])⟩).2
      = InfoOutcome.ok [0x33, 0x33, 0x33, 0x33] := by decide

/-- Claim C1 (amended): after the status phase the dialogue hard-fails
unless the response begins with USBS and its tag equals the request
tag 0x13372342; the status byte is never inspected, so its value does
not affect the outcome. -/
theorem C1_signature_tag_checked (e_in_addr e_out_addr : Nat)
    (dev : InfoDevice)
    (h : utf8Valid (((usb_read_n 0x10 dev.dataResult).take 4).reverse) = true) :
    ((info e_in_addr e_out_addr dev).2 =
      if (parseResponse (usb_read_n RESPONSE_SIZE dev.statusResult)).signature
          = USB_RESPONSE_SIGNATURE then
        if (parseResponse (usb_read_n RESPONSE_SIZE dev.statusResult)).tag
            = 0x13372342 then
          InfoOutcome.ok (((usb_read_n 0x10 dev.dataResult).take 4).reverse)
        else InfoOutcome.tagPanic
      else InfoOutcome.signaturePanic)
    ∧ (∀ pre s s', pre.length = 12 →
        (info e_in_addr e_out_addr
          ⟨dev.sendResult, dev.dataResult, XferResult.ok (pre ++ [s])⟩).2
          = (info e_in_addr e_out_addr
              ⟨dev.sendResult, dev.dataResult, XferResult.ok (pre ++ [s'])⟩).2) := by
  constructor
  · simp only [info, if_pos h]
    rw [if_neg (by rw [usb_read_n_length]; omega)]
    repeat' split
    all_goals rfl
  · intro pre s s' hpre
    have h13 : (pre ++ [s]).length = RESPONSE_SIZE := by
      simp [hpre, RESPONSE_SIZE]
    have h13' : (pre ++ [s']).length = RESPONSE_SIZE := by
      simp [hpre, RESPONSE_SIZE]
    simp only [info, usb_read_n_ok_exact _ _ h13, usb_read_n_ok_exact _ _ h13',
      parseResponse_concat _ _ hpre, h13, h13']

/-- Claim C1 (amended), concrete instance: a well-formed status
response with status byte 0 completes the chip-info dialogue. -/
theorem C1_signature_tag_checked_witness :
    (info 0x81 0x01
      ⟨XferResult.ok [], XferResult.ok (List.replicate 16 0x33),
       XferResult.ok ([0x55, 0x53, 0x42, 0x53] ++ [0x42, 0x23, 0x37, 0x13]
         ++ [0, 0, 0, 0] ++ [0])⟩).2
      = InfoOutcome.ok [0x33, 0x33, 0x33, 0x33] := by
  have h := (C1_signature_tag_checked 0x81 0x01
    ⟨XferResult.ok [], XferResult.ok (List.replicate 16 0x33),
     XferResult.ok ([0x55, 0x53, 0x42, 0x53] ++ [0x42, 0x23, 0x37, 0x13]
       ++ [0, 0, 0, 0] ++ [0])⟩ (by decide)).1
  rw [h]
  decide

/-- Claim C2, counterexample: invoking chip-info on a session whose OUT
endpoint address is 0x02 does not raise any mode error — the command
transfer is issued on endpoint 0x02 as the first USB transfer and the
dialogue completes normally (the code contains no mode check and no
ModeMismatch outcome exists). -/
theorem C2_counterexample :
    ((info 0x81 0x02
        ⟨XferResult.ok [], XferResult.ok (List.replicate 16 0x33),
         XferResult.ok ([0x55, 0x53, 0x42, 0x53] ++ [0x42, 0x23, 0x37, 0x13]
           ++ [0, 0, 0, 0] ++ [0])⟩).1)[0]?
      = some (BulkXfer.bulkOut 0x02 infoReqBytes)
    ∧ (info 0x81 0x02
        ⟨XferResult.ok [], XferResult.ok (List.replicate 16 0x33),
         XferResult.ok ([0x55, 0x53, 0x42, 0x53] ++ [0x42, 0x23, 0x37, 0x13]
           ++ [0, 0, 0, 0] ++ [0])⟩).2
      = InfoOutcome.ok [0x33, 0x33, 0x33, 0x33] := by
  exact ⟨by decide, by decide⟩

/-- Claim C2 (amended): the chip-info dialogue performs no mode
gating: whatever the OUT endpoint address (0x02 included), the first
USB transfer issued is the 31-byte command on that endpoint, and the
outcome is the same as for OUT endpoint 0x01. -/
theorem C2_no_mode_gate (e_in_addr e_out_addr : Nat) (dev : InfoDevice) :
    ((info e_in_addr e_out_addr dev).1)[0]?
      = some (BulkXfer.bulkOut e_out_addr infoReqBytes)
    ∧ (info e_in_addr e_out_addr dev).2 = (info e_in_addr 0x01 dev).2 := by
  constructor
  · simp only [info]
    repeat' split
    all_goals rfl
  · simp only [info]
    repeat' split
    all_goals rfl

/-- Claim C3, counterexample: with the command-out transfer failing and
the data-phase read failing, the dialogue neither reports TransferError
nor Timeout: both results are discarded, the zero-filled buffer stands
in for the data phase, and the operation completes as a success. -/
theorem C3_counterexample :
    (info 0x81 0x01
      ⟨XferResult.error, XferResult.error,
       XferResult.ok ([0x55, 0x53, 0x42, 0x53] ++ [0x42, 0x23, 0x37, 0x13]
         ++ [0, 0, 0, 0] ++ [0])⟩).2
      = InfoOutcome.ok [0x00, 0x00, 0x00, 0x00] := by decide

/-- Claim C3 (amended): bulk-transfer failures are silently discarded,
not propagated: a failed or timed-out read yields the zero-filled
buffer, the command-out result never influences the dialogue, and a
failed or timed-out data-phase read is indistinguishable from a
successful transfer that delivered no bytes — execution continues as
if the transfer succeeded.  (Only the uploader's control transfers
abort on failure.) -/
theorem C3_bulk_errors_discarded (size e_in_addr e_out_addr : Nat)
    (dev : InfoDevice) :
    usb_read_n size XferResult.error = List.replicate size 0
    ∧ usb_read_n size XferResult.timeout = List.replicate size 0
    ∧ (∀ r r', info e_in_addr e_out_addr ⟨r, dev.dataResult, dev.statusResult⟩
          = info e_in_addr e_out_addr ⟨r', dev.dataResult, dev.statusResult⟩)
    ∧ info e_in_addr e_out_addr
        ⟨dev.sendResult, XferResult.error, dev.statusResult⟩
        = info e_in_addr e_out_addr
            ⟨dev.sendResult, XferResult.ok [], dev.statusResult⟩
    ∧ info e_in_addr e_out_addr
        ⟨dev.sendResult, XferResult.timeout, dev.statusResult⟩
        = info e_in_addr e_out_addr
            ⟨dev.sendResult, XferResult.ok [], dev.statusResult⟩ := by
  refine ⟨rfl, rfl, fun r r' => rfl, rfl, rfl⟩

/-- Claim C10: the chip-info operation completes normally exactly on
the reversed first four data-phase bytes being valid UTF-8; when they
are not, the outcome is the process abort of the failed from_utf8
unwrap, not an error value. -/
theorem C10_utf8_gate (e_in_addr e_out_addr : Nat) (dev : InfoDevice) :
    ((info e_in_addr e_out_addr dev).2 = InfoOutcome.utf8Panic
      ↔ utf8Valid (((usb_read_n 0x10 dev.dataResult).take 4).reverse) = false)
    ∧ (∀ cid, (info e_in_addr e_out_addr dev).2 = InfoOutcome.ok cid →
        utf8Valid cid = true
        ∧ cid = ((usb_read_n 0x10 dev.dataResult).take 4).reverse) := by
  by_cases hu :
      utf8Valid (((usb_read_n 0x10 dev.dataResult).take 4).reverse) = true
  · constructor
    · rw [hu]
      simp only [info, if_pos hu]
      constructor
      · intro hc
        exfalso
        revert hc
        repeat' split
        all_goals simp
      · intro hf
        exact absurd hf (by simp)
    · intro cid hok
      simp only [info, if_pos hu] at hok
      revert hok
      repeat' split
      all_goals intro hok
      all_goals simp_all
  · have hu' :
        utf8Valid (((usb_read_n 0x10 dev.dataResult).take 4).reverse) = false := by
      simpa using hu
    constructor
    · rw [hu']
      simp only [info, if_neg hu]
    · intro cid hok
      simp only [info, if_neg hu] at hok
      exact absurd hok (by simp)

/-- Claim C10, concrete instance: a data phase of all 0xFF bytes (the
fill the device is observed to send) has an invalid reversed 4-byte
prefix, and the dialogue ends in the from_utf8 process abort. -/
theorem C10_utf8_gate_witness :
    (info 0x81 0x01
      ⟨XferResult.ok [], XferResult.ok (List.replicate 16 0xFF),
       XferResult.ok []⟩).2 = InfoOutcome.utf8Panic := by
  have h := (C10_utf8_gate 0x81 0x01
    ⟨XferResult.ok [], XferResult.ok (List.replicate 16 0xFF),
     XferResult.ok []⟩).1
  exact h.mpr (by decide)

